import Mathlib

/-!
Shallow embedding of the payment-lifecycle core of an education-platform
backend: the Razorpay order/verification/webhook/refund controller
(`src/controllers/paymentController.js`), the Razorpay utility module
(`src/utils/razorpay.js`) and the `Payment` Mongoose model.

JavaScript conventions are modelled explicitly: a "falsy" string test
(`!s`, `s || fallback`) treats both a missing value and the empty string
as false; Mongo documents are records; `Payment.findOne({orderId})`
followed by `save()` on the found document is the update of the first
record with that `orderId` in a list-modelled store.
-/

namespace PaymentCore

/-- JS `a || b` for an optional string `a`: `none` and `""` are falsy. -/
def jsOr (a : Option String) (b : String) : String :=
  match a with
  | some s => if s = "" then b else s
  | none => b

/-- JS `a || null` for an optional string `a`. -/
def jsOrNull (a : Option String) : Option String :=
  match a with
  | some s => if s = "" then none else some s
  | none => none

/-- JS `if (a) x = a` applied to an optional string field with previous value `b`. -/
def jsOrElse (a b : Option String) : Option String :=
  match a with
  | some s => if s = "" then b else some s
  | none => b

/-- The `paymentStatus` enum of the Payment schema. -/
inductive PaymentStatus
  | pending
  | processing
  | completed
  | failed
  | refunded
  | cancelled
deriving DecidableEq

/-- The `razorpayPayment` sub-object merged into `metadata` by the
verification handler and the `payment.captured` webhook handler. -/
structure RazorpayPaymentInfo where
  method : Option String
  bank : Option String
  wallet : Option String
  vpa : Option String
  email : Option String
  contact : Option String
deriving DecidableEq

/-- `metadata`: an open bag (`other`, untouched by the payment operations)
plus the one key the controller writes, `razorpayPayment`; the JS spread
`{...payment.metadata, razorpayPayment: {...}}` keeps `other` and
overwrites `razorpayPayment`. -/
structure Metadata where
  other : List (String × String)
  razorpayPayment : Option RazorpayPaymentInfo
deriving DecidableEq

/-- A line item of a payment (fields not read by any lifecycle operation
are elided). -/
structure Item where
  itemName : String
  price : Int
deriving DecidableEq

/-- The Payment document. Pure pass-through fields (userName, userEmail,
billingAddress, timestamps) are elided; `user` is the owner id. -/
structure PaymentRecord where
  user : Nat
  orderId : String
  transactionId : Option String
  amount : Int
  currency : String
  paymentStatus : PaymentStatus
  paymentMethod : String
  items : List Item
  receiptUrl : Option String
  invoiceUrl : Option String
  refundAmount : Int
  refundReason : Option String
  refundedAt : Option Nat
  notes : Option String
  metadata : Metadata
deriving DecidableEq

/-- `Payment.findOne({ orderId })` over a list-modelled store. -/
def findOne (oid : String) (db : List PaymentRecord) : Option PaymentRecord :=
  db.find? (fun p => p.orderId = oid)

/-- Mutating the found document and `save()`-ing it: update the first
record whose `orderId` matches. -/
def updateFirst (oid : String) (f : PaymentRecord → PaymentRecord) :
    List PaymentRecord → List PaymentRecord
  | [] => []
  | p :: ps => if p.orderId = oid then f p :: ps else p :: updateFirst oid f ps

/-! ## Gateway utility module (`src/utils/razorpay.js`) -/

/-- The payment object returned by `razorpay.payments.fetch`. -/
structure GatewayPayment where
  status : String
  method : Option String
  bank : Option String
  wallet : Option String
  vpa : Option String
  email : Option String
  contact : Option String
  receipt : Option String
deriving DecidableEq

/-- `verifyPaymentSignature`: HMAC over `orderId + "|" + paymentId` with the
key secret, compared to the submitted signature. A missing secret makes
`crypto.createHmac` throw, modelled as `none`. The HMAC itself is passed
in as a function parameter. -/
def verifyPaymentSignature (hmac : String → String → String)
    (keySecret : Option String) (orderId paymentId signature : String) :
    Option Bool :=
  match keySecret with
  | none => none
  | some ks => some (hmac ks (orderId ++ "|" ++ paymentId) == signature)

/-- The options object `createRazorpayOrder` sends to
`razorpay.orders.create`: the amount is converted to paise. -/
structure OrderOptions where
  amount : Int
  currency : String
  receipt : String
deriving DecidableEq

/-- `createRazorpayOrder`: builds the gateway order options;
`options.amount = amount * 100`. -/
def createRazorpayOrderOptions (amount : Int) (currency receipt : String) :
    OrderOptions :=
  { amount := amount * 100, currency := currency, receipt := receipt }

/-- `processRazorpayRefund`: the `amount` entry of the options object sent
to `razorpay.payments.refund`; set (converted to paise) only when the
argument is truthy (`if (amount)`), i.e. present and nonzero. -/
def processRazorpayRefundOptions (amount : Option Int) : Option Int :=
  match amount with
  | some a => if a = 0 then none else some (a * 100)
  | none => none

/-! ## Webhook payloads and handlers -/

/-- The `payload.payment.entity` object of a Razorpay webhook. -/
structure PaymentEntity where
  id : String
  order_id : String
  method : Option String
  bank : Option String
  wallet : Option String
  vpa : Option String
  email : Option String
  contact : Option String
  receipt : Option String
  error_description : Option String
deriving DecidableEq

/-- The `razorpayPayment` metadata written from a fetched gateway payment. -/
def gwInfo (gw : GatewayPayment) : RazorpayPaymentInfo :=
  ⟨gw.method, gw.bank, gw.wallet, gw.vpa, gw.email, gw.contact⟩

/-- The `razorpayPayment` metadata written from a webhook payment entity. -/
def entityInfo (e : PaymentEntity) : RazorpayPaymentInfo :=
  ⟨e.method, e.bank, e.wallet, e.vpa, e.email, e.contact⟩

/-- The record update `handlePaymentCaptured` applies to the found record. -/
def capturedUpdate (e : PaymentEntity) (p : PaymentRecord) : PaymentRecord :=
  { p with
    transactionId := some e.id
    paymentStatus := .completed
    paymentMethod := jsOr e.method p.paymentMethod
    receiptUrl := jsOrNull e.receipt
    metadata := { p.metadata with razorpayPayment := some (entityInfo e) } }

/-- The record update `handlePaymentFailed` applies to the found record. -/
def failedUpdate (e : PaymentEntity) (p : PaymentRecord) : PaymentRecord :=
  { p with
    transactionId := some e.id
    paymentStatus := .failed
    notes := some (jsOr e.error_description "Payment failed") }

/-- The record update `handleOrderPaid` applies to the found record
(`if (payment && payment.paymentStatus !== 'completed')`). -/
def orderPaidUpdate (p : PaymentRecord) : PaymentRecord :=
  if p.paymentStatus ≠ .completed then { p with paymentStatus := .completed } else p

/-- `handlePaymentCaptured`: find by `order_id`, apply the captured update;
no record found means no change. -/
def handlePaymentCaptured (e : PaymentEntity) (db : List PaymentRecord) :
    List PaymentRecord :=
  updateFirst e.order_id (capturedUpdate e) db

/-- `handlePaymentFailed`. -/
def handlePaymentFailed (e : PaymentEntity) (db : List PaymentRecord) :
    List PaymentRecord :=
  updateFirst e.order_id (failedUpdate e) db

/-- `handleOrderPaid` (the order entity contributes only its `id`). -/
def handleOrderPaid (oid : String) (db : List PaymentRecord) :
    List PaymentRecord :=
  updateFirst oid orderPaidUpdate db

/-- A parsed webhook event, as dispatched by the `switch` in
`razorpayWebhook`. -/
inductive WebhookEvent
  | paymentCaptured (e : PaymentEntity)
  | paymentFailed (e : PaymentEntity)
  | orderPaid (orderId : String)
  | other (name : String)

/-- The HTTP outcome of the webhook endpoint. -/
inductive WebhookResult
  | secretMissing
  | invalidSignature
  | processed
deriving DecidableEq

/-- `razorpayWebhook`: fail when the webhook secret is not configured;
compare the header signature against the HMAC of the raw body; on match,
dispatch the event (unknown events are logged and dropped) and answer
success. -/
def razorpayWebhook (hmac : String → String → String) (secret : Option String)
    (signature : Option String) (rawBody : String) (ev : WebhookEvent)
    (db : List PaymentRecord) : WebhookResult × List PaymentRecord :=
  match secret with
  | none => (.secretMissing, db)
  | some ks =>
    if signature ≠ some (hmac ks rawBody) then (.invalidSignature, db)
    else
      match ev with
      | .paymentCaptured e => (.processed, handlePaymentCaptured e db)
      | .paymentFailed e => (.processed, handlePaymentFailed e db)
      | .orderPaid oid => (.processed, handleOrderPaid oid db)
      | .other _ => (.processed, db)

/-! ## Client verification (`verifyRazorpayPayment`) -/

/-- The HTTP outcome of the verification endpoint. -/
inductive VerifyResult
  | missingFields
  | notFound
  | notAuthorized
  | serverError
  | invalidSignature
  | verified
deriving DecidableEq

/-- The mutation applied when the signature check fails: status forced to
`failed` and a failure note written, then saved. -/
def verifyFailUpdate (p : PaymentRecord) : PaymentRecord :=
  { p with
    paymentStatus := .failed
    notes := some "Payment verification failed: Invalid signature" }

/-- The mutation applied on a valid signature, `gw` being the payment
fetched from the gateway: set `transactionId`, status `completed` when the
gateway reports `captured` (merging gateway method metadata and the
receipt) and `processing` otherwise. -/
def verifySuccessUpdate (paymentId : String) (gw : GatewayPayment)
    (p : PaymentRecord) : PaymentRecord :=
  if gw.status = "captured" then
    { p with
      transactionId := some paymentId
      paymentStatus := .completed
      paymentMethod := jsOr gw.method p.paymentMethod
      receiptUrl := jsOrNull gw.receipt
      metadata := { p.metadata with razorpayPayment := some (gwInfo gw) } }
  else
    { p with
      transactionId := some paymentId
      paymentStatus := .processing
      paymentMethod := jsOr gw.method p.paymentMethod }

/-- `verifyRazorpayPayment`: field presence check (JS falsy, so `""` counts
as missing), record lookup by `orderId`, ownership check, signature check
(a thrown HMAC error surfaces as a 500 with no mutation), then either the
failure mutation or the success mutation. -/
def verifyRazorpayPayment (hmac : String → String → String)
    (keySecret : Option String) (uid : Nat) (orderId paymentId signature : String)
    (gw : GatewayPayment) (db : List PaymentRecord) :
    VerifyResult × List PaymentRecord :=
  if orderId = "" ∨ paymentId = "" ∨ signature = "" then (.missingFields, db)
  else
    match findOne orderId db with
    | none => (.notFound, db)
    | some p =>
      if p.user ≠ uid then (.notAuthorized, db)
      else
        match verifyPaymentSignature hmac keySecret orderId paymentId signature with
        | none => (.serverError, db)
        | some false => (.invalidSignature, updateFirst orderId verifyFailUpdate db)
        | some true =>
          (.verified, updateFirst orderId (verifySuccessUpdate paymentId gw) db)

/-! ## Refund (`processRefund`) -/

/-- The body of a refund request. -/
structure RefundRequest where
  refundAmount : Option Int
  refundReason : Option String
  notes : Option String

/-- The HTTP outcome of the refund endpoint. -/
inductive RefundResult
  | invalidAmount
  | notFound
  | notCompleted
  | alreadyRefunded
  | exceedsAmount
  | refunded
deriving DecidableEq

/-- A call made to the gateway adapter during an operation. -/
inductive GatewayCall
  | issueRefund (transactionId : String) (amount : Int)
deriving DecidableEq

/-- `processRefund`: amount validation (`!refundAmount || refundAmount <= 0`),
then record existence, `completed` status, no prior refund
(`payment.refundAmount > 0`), and the bound against the original amount;
on success the refund fields and status are written directly. The third
component is the list of gateway-adapter calls the handler makes: the
controller imports `processRazorpayRefund` but its body never invokes it,
so the trace is `[]` on every path. -/
def processRefund (req : RefundRequest) (record : Option PaymentRecord)
    (now : Nat) : RefundResult × Option PaymentRecord × List GatewayCall :=
  match req.refundAmount with
  | none => (.invalidAmount, record, [])
  | some a =>
    if a ≤ 0 then (.invalidAmount, record, [])
    else
      match record with
      | none => (.notFound, none, [])
      | some p =>
        if p.paymentStatus ≠ .completed then (.notCompleted, some p, [])
        else if p.refundAmount > 0 then (.alreadyRefunded, some p, [])
        else if a > p.amount then (.exceedsAmount, some p, [])
        else
          (.refunded,
           some { p with
                  refundAmount := a
                  refundReason := some (jsOr req.refundReason "Requested refund")
                  refundedAt := some now
                  paymentStatus := .refunded
                  notes := jsOrElse req.notes p.notes },
           [])

/-! ## Admin status update (`updatePaymentStatus`) -/

/-- The body of an admin status-update request. -/
structure StatusUpdateRequest where
  paymentStatus : Option PaymentStatus
  transactionId : Option String
  receiptUrl : Option String
  invoiceUrl : Option String
  notes : Option String

/-- `updatePaymentStatus`: each truthy body field overwrites the record
field; the boolean is `false` exactly when the record was not found. -/
def updatePaymentStatus (req : StatusUpdateRequest)
    (record : Option PaymentRecord) : Bool × Option PaymentRecord :=
  match record with
  | none => (false, none)
  | some p =>
    (true,
     some { p with
            paymentStatus := req.paymentStatus.getD p.paymentStatus
            transactionId := jsOrElse req.transactionId p.transactionId
            receiptUrl := jsOrElse req.receiptUrl p.receiptUrl
            invoiceUrl := jsOrElse req.invoiceUrl p.invoiceUrl
            notes := jsOrElse req.notes p.notes })

/-! ## Order creation (`createRazorpayOrderHandler`) -/

/-- The outcome of the order-creation endpoint: validation failure, or the
options sent to the gateway together with the persisted pending record. -/
inductive CreateOrderOutcome
  | invalidAmount
  | noItems
  | created (options : OrderOptions) (record : PaymentRecord)
deriving DecidableEq

/-- The `pending` record persisted by the order-creation handler: the
un-multiplied amount, the gateway-assigned order id, `paymentMethod`
defaulted to `upi`. -/
def newPendingRecord (uid : Nat) (amount : Int) (currency : String)
    (items : List Item) (gatewayOrderId : String) : PaymentRecord :=
  { user := uid
    orderId := gatewayOrderId
    transactionId := none
    amount := amount
    currency := currency
    paymentStatus := .pending
    paymentMethod := "upi"
    items := items
    receiptUrl := none
    invoiceUrl := none
    refundAmount := 0
    refundReason := none
    refundedAt := none
    notes := none
    metadata := { other := [], razorpayPayment := none } }

/-- `createRazorpayOrderHandler`: validate the amount and the items, send
the paise-converted options to the gateway, persist a `pending` record
storing the un-multiplied amount under the gateway-assigned order id. -/
def createRazorpayOrderHandler (uid : Nat) (amount : Int) (currency : String)
    (items : List Item) (receiptId gatewayOrderId : String) :
    CreateOrderOutcome :=
  if amount ≤ 0 then .invalidAmount
  else if items = [] then .noItems
  else
    .created (createRazorpayOrderOptions amount currency receiptId)
      (newPendingRecord uid amount currency items gatewayOrderId)

/-! ## The refund-fields invariant (spec section 3) -/

/-- All three refund fields are set. -/
def refundFieldsSet (p : PaymentRecord) : Prop :=
  0 < p.refundAmount ∧ p.refundReason.isSome ∧ p.refundedAt.isSome

instance (p : PaymentRecord) : Decidable (refundFieldsSet p) := by
  unfold refundFieldsSet; infer_instance

/-- The spec invariant: refund fields are non-empty iff the status is
`refunded`. -/
def refundInvariant (p : PaymentRecord) : Prop :=
  refundFieldsSet p ↔ p.paymentStatus = .refunded

instance (p : PaymentRecord) : Decidable (refundInvariant p) := by
  unfold refundInvariant; infer_instance

/-- A webhook event that matches no record in the store: either its order
reference is unknown or its event type is unhandled. -/
def eventUnmatched (ev : WebhookEvent) (db : List PaymentRecord) : Prop :=
  match ev with
  | .paymentCaptured e => findOne e.order_id db = none
  | .paymentFailed e => findOne e.order_id db = none
  | .orderPaid oid => findOne oid db = none
  | .other _ => True

/-! ## Concrete sample data -/

/-- The empty metadata bag. -/
def mdEmpty : Metadata := { other := [], razorpayPayment := none }

/-- A freshly created pending record for order `order_A`, amount 999. -/
def samplePending : PaymentRecord :=
  { user := 1
    orderId := "order_A"
    transactionId := none
    amount := 999
    currency := "INR"
    paymentStatus := .pending
    paymentMethod := "upi"
    items := [⟨"membership", 999⟩]
    receiptUrl := none
    invoiceUrl := none
    refundAmount := 0
    refundReason := none
    refundedAt := none
    notes := none
    metadata := mdEmpty }

/-- The same record once completed with transaction `pay_1`. -/
def sampleCompleted : PaymentRecord :=
  { samplePending with paymentStatus := .completed, transactionId := some "pay_1" }

/-- The same record after a full refund. -/
def sampleRefunded : PaymentRecord :=
  { sampleCompleted with
    paymentStatus := .refunded
    refundAmount := 999
    refundReason := some "Requested refund"
    refundedAt := some 3 }

/-- A webhook payment entity for `order_A`, transaction `pay_1`. -/
def sampleEntity : PaymentEntity :=
  { id := "pay_1"
    order_id := "order_A"
    method := some "card"
    bank := none
    wallet := none
    vpa := none
    email := none
    contact := none
    receipt := none
    error_description := some "card declined" }

/-- A captured gateway payment matching `sampleEntity`. -/
def sampleGw : GatewayPayment :=
  { status := "captured"
    method := some "card"
    bank := none
    wallet := none
    vpa := none
    email := none
    contact := none
    receipt := none }

/-- A concrete stand-in for the HMAC function, used only to instantiate
witnesses. -/
def hmacToy : String → String → String := fun k m => k ++ "#" ++ m

/-! ## Store lemmas -/

theorem findOne_cons (oid : String) (p : PaymentRecord) (ps : List PaymentRecord) :
    findOne oid (p :: ps) = if p.orderId = oid then some p else findOne oid ps := by
  by_cases h : p.orderId = oid <;> simp [findOne, List.find?_cons, h]

theorem updateFirst_of_findOne_none (oid : String) (f : PaymentRecord → PaymentRecord)
    (db : List PaymentRecord) (h : findOne oid db = none) :
    updateFirst oid f db = db := by
  induction db with
  | nil => rfl
  | cons p ps ih =>
    rw [findOne_cons] at h
    by_cases hp : p.orderId = oid
    · simp [hp] at h
    · simp only [updateFirst, if_neg hp]
      rw [if_neg hp] at h
      rw [ih h]

theorem findOne_updateFirst (oid : String) (f : PaymentRecord → PaymentRecord)
    (db : List PaymentRecord) (hf : ∀ p, (f p).orderId = p.orderId) :
    findOne oid (updateFirst oid f db) = (findOne oid db).map f := by
  induction db with
  | nil => rfl
  | cons p ps ih =>
    by_cases hp : p.orderId = oid
    · simp [updateFirst, findOne_cons, hp, hf p]
    · simp [updateFirst, findOne_cons, hp, ih]

theorem updateFirst_updateFirst (oid : String) (f g : PaymentRecord → PaymentRecord)
    (db : List PaymentRecord) (hg : ∀ p, (g p).orderId = p.orderId) :
    updateFirst oid f (updateFirst oid g db)
      = updateFirst oid (fun p => f (g p)) db := by
  induction db with
  | nil => rfl
  | cons p ps ih =>
    by_cases hp : p.orderId = oid
    · simp only [updateFirst, if_pos hp, hg p, if_pos hp]
    · simp only [updateFirst, if_neg hp, ih]

theorem updateFirst_congr (oid : String) (f g : PaymentRecord → PaymentRecord)
    (db : List PaymentRecord) (h : ∀ p, f p = g p) :
    updateFirst oid f db = updateFirst oid g db := by
  induction db with
  | nil => rfl
  | cons p ps ih =>
    by_cases hp : p.orderId = oid
    · simp only [updateFirst, if_pos hp, h p]
    · simp only [updateFirst, if_neg hp, ih]

/-! ## Field-preservation and algebraic lemmas on the record updates -/

theorem jsOr_idem (a : Option String) (b : String) : jsOr a (jsOr a b) = jsOr a b := by
  cases a with
  | none => rfl
  | some s =>
    by_cases h : s = "" <;> simp [jsOr, h]

theorem capturedUpdate_orderId (e : PaymentEntity) (p : PaymentRecord) :
    (capturedUpdate e p).orderId = p.orderId := rfl

theorem capturedUpdate_user (e : PaymentEntity) (p : PaymentRecord) :
    (capturedUpdate e p).user = p.user := rfl

theorem failedUpdate_orderId (e : PaymentEntity) (p : PaymentRecord) :
    (failedUpdate e p).orderId = p.orderId := rfl

theorem orderPaidUpdate_orderId (p : PaymentRecord) :
    (orderPaidUpdate p).orderId = p.orderId := by
  unfold orderPaidUpdate; split <;> rfl

theorem verifyFailUpdate_orderId (p : PaymentRecord) :
    (verifyFailUpdate p).orderId = p.orderId := rfl

theorem verifySuccessUpdate_orderId (pid : String) (gw : GatewayPayment)
    (p : PaymentRecord) : (verifySuccessUpdate pid gw p).orderId = p.orderId := by
  unfold verifySuccessUpdate; split <;> rfl

theorem capturedUpdate_idem (e : PaymentEntity) (p : PaymentRecord) :
    capturedUpdate e (capturedUpdate e p) = capturedUpdate e p := by
  simp [capturedUpdate, jsOr_idem]

theorem verify_captured_update_comm (pid : String) (gw : GatewayPayment)
    (e : PaymentEntity) (p : PaymentRecord) (hcap : gw.status = "captured")
    (hei : e.id = pid) (hm : e.method = gw.method) (hb : e.bank = gw.bank)
    (hw : e.wallet = gw.wallet) (hv : e.vpa = gw.vpa) (hem : e.email = gw.email)
    (hc : e.contact = gw.contact) (hr : e.receipt = gw.receipt) :
    verifySuccessUpdate pid gw (capturedUpdate e p)
      = capturedUpdate e (verifySuccessUpdate pid gw p) := by
  simp [verifySuccessUpdate, capturedUpdate, hcap, hei, hm, hb, hw, hv, hem, hc,
    hr, gwInfo, entityInfo, jsOr_idem]

/-! ## Unfolding lemmas for the verification endpoint -/

theorem verify_success_eq (hmac : String → String → String) (ks : String)
    (uid : Nat) (oid pid s : String) (gw : GatewayPayment)
    (db : List PaymentRecord) (p : PaymentRecord)
    (ho : oid ≠ "") (hp : pid ≠ "") (hs : s ≠ "")
    (hfind : findOne oid db = some p) (huser : p.user = uid)
    (hsig : hmac ks (oid ++ "|" ++ pid) = s) :
    verifyRazorpayPayment hmac (some ks) uid oid pid s gw db
      = (.verified, updateFirst oid (verifySuccessUpdate pid gw) db) := by
  simp [verifyRazorpayPayment, verifyPaymentSignature, ho, hp, hs, hfind, huser,
    hsig]

theorem verify_fail_eq (hmac : String → String → String) (ks : String)
    (uid : Nat) (oid pid s : String) (gw : GatewayPayment)
    (db : List PaymentRecord) (p : PaymentRecord)
    (ho : oid ≠ "") (hp : pid ≠ "") (hs : s ≠ "")
    (hfind : findOne oid db = some p) (huser : p.user = uid)
    (hsig : hmac ks (oid ++ "|" ++ pid) ≠ s) :
    verifyRazorpayPayment hmac (some ks) uid oid pid s gw db
      = (.invalidSignature, updateFirst oid verifyFailUpdate db) := by
  have hb : (hmac ks (oid ++ "|" ++ pid) == s) = false :=
    beq_eq_false_iff_ne.mpr hsig
  simp [verifyRazorpayPayment, verifyPaymentSignature, ho, hp, hs, hfind, huser,
    hb]

/-! ## Claim theorems -/

/-- Claim C1: the claim says the refund operation calls the Gateway
Adapter's `issueRefund` and only writes the refund fields after that call
succeeds. Evaluating the refund handler at a concrete request that passes
every precondition shows the record is marked `refunded` with the refund
fields written while the gateway-call trace is empty: the controller never
invokes the adapter (the `processRazorpayRefund` import is unused). -/
theorem refund_confirms_without_gateway_call :
    (processRefund ⟨some 200, some "customer request", none⟩
        (some sampleCompleted) 7).1 = .refunded
    ∧ (processRefund ⟨some 200, some "customer request", none⟩
        (some sampleCompleted) 7).2.2 = []
    ∧ ((processRefund ⟨some 200, some "customer request", none⟩
        (some sampleCompleted) 7).2.1).map (fun q => q.paymentStatus)
        = some .refunded
    ∧ ((processRefund ⟨some 200, some "customer request", none⟩
        (some sampleCompleted) 7).2.1).map (fun q => q.refundAmount)
        = some 200 := by
  decide

/-- Claim C2 counterexample: a `payment.failed` webhook event moves a
record whose status is the terminal `completed` to `failed`, so a
gateway-driven operation does change the status of a terminal record. -/
theorem completed_record_moved_to_failed_by_webhook :
    sampleCompleted.paymentStatus = .completed
    ∧ findOne "order_A" (handlePaymentFailed sampleEntity [sampleCompleted])
        = some (failedUpdate sampleEntity sampleCompleted)
    ∧ (failedUpdate sampleEntity sampleCompleted).paymentStatus = .failed := by
  decide

/-- Claim C2 amended: terminal statuses are not preserved by the
gateway-driven operations. On any found record, regardless of its current
status (including `completed`, `refunded` and `cancelled`), the
`payment.captured` handler sets status `completed`, the `payment.failed`
handler sets `failed`, the `order.paid` handler ends at `completed`
(leaving an already-`completed` record unchanged but moving `refunded` and
`cancelled` forward), a successful client verification sets `completed` or
`processing` according to the gateway capture status, and a failed client
verification sets `failed`. -/
theorem gateway_ops_overwrite_terminal_status (e : PaymentEntity)
    (pid : String) (gw : GatewayPayment) (p : PaymentRecord) :
    (capturedUpdate e p).paymentStatus = .completed
    ∧ (failedUpdate e p).paymentStatus = .failed
    ∧ (orderPaidUpdate p).paymentStatus = .completed
    ∧ (verifySuccessUpdate pid gw p).paymentStatus
        = (if gw.status = "captured" then .completed else .processing)
    ∧ (verifyFailUpdate p).paymentStatus = .failed := by
  refine ⟨rfl, rfl, ?_, ?_, rfl⟩
  · by_cases h : p.paymentStatus = PaymentStatus.completed <;>
      simp [orderPaidUpdate, h]
  · by_cases h : gw.status = "captured" <;> simp [verifySuccessUpdate, h]

/-- Claim C5: applying the same `payment.captured` webhook event twice in
succession yields the same final store as applying it once, and the webhook
endpoint (with a correctly signed body) answers success on a repeated
delivery — re-applying the event when the record is already `completed` is
a successful no-op, not an error. -/
theorem payment_captured_idempotent (hmac : String → String → String)
    (ks body : String) (e : PaymentEntity) (db : List PaymentRecord) :
    handlePaymentCaptured e (handlePaymentCaptured e db)
      = handlePaymentCaptured e db
    ∧ razorpayWebhook hmac (some ks) (some (hmac ks body)) body
        (.paymentCaptured e) (handlePaymentCaptured e db)
      = (.processed, handlePaymentCaptured e db) := by
  have hidem : handlePaymentCaptured e (handlePaymentCaptured e db)
      = handlePaymentCaptured e db := by
    unfold handlePaymentCaptured
    rw [updateFirst_updateFirst _ _ _ _ (capturedUpdate_orderId e)]
    exact updateFirst_congr _ _ _ _ (fun p => capturedUpdate_idem e p)
  exact ⟨hidem, by simp [razorpayWebhook, hidem]⟩

/-- Claim C9: a correctly signed webhook whose order reference matches no
record, or whose event type is not one of the three handled ones, is
discarded — the store is returned unchanged (no record created or mutated)
and the endpoint reports success to the sender. -/
theorem webhook_unknown_event_discarded (hmac : String → String → String)
    (ks body : String) (ev : WebhookEvent) (db : List PaymentRecord)
    (h : eventUnmatched ev db) :
    razorpayWebhook hmac (some ks) (some (hmac ks body)) body ev db
      = (.processed, db) := by
  cases ev with
  | paymentCaptured e =>
    have h2 : findOne e.order_id db = none := h
    simp [razorpayWebhook, handlePaymentCaptured,
      updateFirst_of_findOne_none _ _ _ h2]
  | paymentFailed e =>
    have h2 : findOne e.order_id db = none := h
    simp [razorpayWebhook, handlePaymentFailed,
      updateFirst_of_findOne_none _ _ _ h2]
  | orderPaid oid =>
    have h2 : findOne oid db = none := h
    simp [razorpayWebhook, handleOrderPaid,
      updateFirst_of_findOne_none _ _ _ h2]
  | other name => simp [razorpayWebhook]

/-- Claim C9 witness: a correctly signed webhook carrying an unrecognized
event type against a one-record store leaves the store unchanged and
reports success. -/
theorem webhook_unknown_event_discarded_witness :
    razorpayWebhook hmacToy (some "sec") (some (hmacToy "sec" "rawbody"))
      "rawbody" (.other "invoice.paid") [samplePending]
      = (.processed, [samplePending]) :=
  webhook_unknown_event_discarded hmacToy "sec" "rawbody"
    (.other "invoice.paid") [samplePending] trivial

/-- Claim C10: for a valid order creation the options sent to the gateway
carry exactly 100 times the amount persisted on the pending record (paise
conversion), and the refund utility applies the same conversion to a
provided nonzero amount. -/
theorem paise_conversion_consistency (uid : Nat) (amount : Int)
    (currency : String) (items : List Item) (receiptId gatewayOrderId : String)
    (a : Int) (hamt : 0 < amount) (hitems : items ≠ []) (ha : a ≠ 0) :
    createRazorpayOrderHandler uid amount currency items receiptId gatewayOrderId
      = .created (createRazorpayOrderOptions amount currency receiptId)
          (newPendingRecord uid amount currency items gatewayOrderId)
    ∧ (createRazorpayOrderOptions amount currency receiptId).amount
        = 100 * (newPendingRecord uid amount currency items gatewayOrderId).amount
    ∧ processRazorpayRefundOptions (some a) = some (100 * a) := by
  refine ⟨?_, ?_, ?_⟩
  · unfold createRazorpayOrderHandler
    rw [if_neg (by omega), if_neg hitems]
  · simp [createRazorpayOrderOptions, newPendingRecord, Int.mul_comm]
  · simp [processRazorpayRefundOptions, ha, Int.mul_comm]

/-- Claim C10 witness: creating an order of amount 999 sends 99900 paise to
the gateway while the record stores 999, and a refund of 250 is sent as
25000 paise. -/
theorem paise_conversion_consistency_witness :
    (0 : Int) < 999
    ∧ ([(⟨"membership", 999⟩ : Item)] ≠ ([] : List Item))
    ∧ ((250 : Int) ≠ 0)
    ∧ createRazorpayOrderHandler 1 999 "INR" [⟨"membership", 999⟩] "r1" "order_A"
        = .created (createRazorpayOrderOptions 999 "INR" "r1")
            (newPendingRecord 1 999 "INR" [⟨"membership", 999⟩] "order_A")
    ∧ (createRazorpayOrderOptions 999 "INR" "r1").amount
        = 100 * (newPendingRecord 1 999 "INR" [⟨"membership", 999⟩] "order_A").amount
    ∧ processRazorpayRefundOptions (some 250) = some (100 * 250) := by
  have h := paise_conversion_consistency 1 999 "INR" [⟨"membership", 999⟩]
    "r1" "order_A" 250 (by decide) (by decide) (by decide)
  exact ⟨by decide, by decide, by decide, h.1, h.2.1, h.2.2⟩

/-- Claim C3 counterexample: a client verification whose digest mismatches
does mutate the record — the pending record is moved to `failed` with a
failure note — contradicting "no field of any payment record is mutated";
moreover a webhook with a missing secret reports a configuration error,
not a signature-invalid error. -/
theorem invalid_signature_verification_mutates_record :
    (verifyRazorpayPayment hmacToy (some "sec") 1 "order_A" "pay_1" "bad"
        sampleGw [samplePending]).1 = .invalidSignature
    ∧ (verifyRazorpayPayment hmacToy (some "sec") 1 "order_A" "pay_1" "bad"
        sampleGw [samplePending]).2 ≠ [samplePending]
    ∧ findOne "order_A" (verifyRazorpayPayment hmacToy (some "sec") 1 "order_A"
        "pay_1" "bad" sampleGw [samplePending]).2
        = some (verifyFailUpdate samplePending)
    ∧ (verifyFailUpdate samplePending).paymentStatus = .failed
    ∧ samplePending.paymentStatus = .pending
    ∧ razorpayWebhook hmacToy none (some "sig") "rawbody" (.other "x") []
        = (.secretMissing, [])
    ∧ WebhookResult.secretMissing ≠ .invalidSignature := by
  decide

/-- Claim C3 amended: webhook requests failing the signature check mutate
nothing (a missing secret yields a configuration error, a missing or
mismatched signature yields a signature-invalid error, the store unchanged
in both cases); a client verification whose digest mismatches reports a
signature-invalid error but does mutate the record: its status is forced
to `failed` and a failure note is written. -/
theorem signature_failure_outcomes :
    (∀ (hmac : String → String → String) (sig : Option String) (body : String)
        (ev : WebhookEvent) (db : List PaymentRecord),
        razorpayWebhook hmac none sig body ev db = (.secretMissing, db))
    ∧ (∀ (hmac : String → String → String) (ks : String) (sig : Option String)
        (body : String) (ev : WebhookEvent) (db : List PaymentRecord),
        sig ≠ some (hmac ks body) →
        razorpayWebhook hmac (some ks) sig body ev db = (.invalidSignature, db))
    ∧ (∀ (hmac : String → String → String) (ks : String) (uid : Nat)
        (oid pid s : String) (gw : GatewayPayment) (db : List PaymentRecord)
        (p : PaymentRecord),
        oid ≠ "" → pid ≠ "" → s ≠ "" → findOne oid db = some p → p.user = uid →
        hmac ks (oid ++ "|" ++ pid) ≠ s →
        verifyRazorpayPayment hmac (some ks) uid oid pid s gw db
          = (.invalidSignature, updateFirst oid verifyFailUpdate db)
        ∧ findOne oid
            (verifyRazorpayPayment hmac (some ks) uid oid pid s gw db).2
            = some (verifyFailUpdate p)
        ∧ (verifyFailUpdate p).paymentStatus = .failed
        ∧ (verifyFailUpdate p).notes
            = some "Payment verification failed: Invalid signature") := by
  refine ⟨?_, ?_, ?_⟩
  · intro hmac sig body ev db
    simp [razorpayWebhook]
  · intro hmac ks sig body ev db h
    simp only [razorpayWebhook]
    rw [if_pos h]
  · intro hmac ks uid oid pid s gw db p ho hp hs hfind huser hsig
    have he := verify_fail_eq hmac ks uid oid pid s gw db p ho hp hs hfind
      huser hsig
    refine ⟨he, ?_, rfl, rfl⟩
    rw [he, findOne_updateFirst _ _ _ verifyFailUpdate_orderId, hfind]
    rfl

/-- Claim C3 witness: a concrete tampered client verification yields the
signature-invalid outcome with the failure mutation applied, and a concrete
webhook with no signature header is rejected with the store unchanged. -/
theorem signature_failure_outcomes_witness :
    verifyRazorpayPayment hmacToy (some "sec") 1 "order_A" "pay_1" "tampered"
      sampleGw [samplePending]
      = (.invalidSignature, updateFirst "order_A" verifyFailUpdate [samplePending])
    ∧ razorpayWebhook hmacToy (some "sec") none "rawbody" (.other "x") []
      = (.invalidSignature, []) := by
  refine ⟨?_, ?_⟩
  · exact (signature_failure_outcomes.2.2 hmacToy "sec" 1 "order_A" "pay_1"
      "tampered" sampleGw [samplePending] samplePending (by decide) (by decide)
      (by decide) (by decide) rfl (by decide)).1
  · exact signature_failure_outcomes.2.1 hmacToy "sec" none "rawbody"
      (.other "x") [] (by simp)

/-- Claim C7: a client verification with a valid signature on an owned
record sets `transactionId` to the submitted payment id; when the gateway
reports the payment captured the gateway method metadata is merged into the
record's metadata and the status becomes `completed`, otherwise the status
becomes `processing`. -/
theorem verify_success_updates_record (hmac : String → String → String)
    (ks : String) (uid : Nat) (oid pid s : String) (gw : GatewayPayment)
    (db : List PaymentRecord) (p : PaymentRecord)
    (ho : oid ≠ "") (hp : pid ≠ "") (hs : s ≠ "")
    (hfind : findOne oid db = some p) (huser : p.user = uid)
    (hsig : hmac ks (oid ++ "|" ++ pid) = s)
    (_hstat : p.paymentStatus = .pending ∨ p.paymentStatus = .processing) :
    (verifyRazorpayPayment hmac (some ks) uid oid pid s gw db).1 = .verified
    ∧ findOne oid (verifyRazorpayPayment hmac (some ks) uid oid pid s gw db).2
        = some (verifySuccessUpdate pid gw p)
    ∧ (verifySuccessUpdate pid gw p).transactionId = some pid
    ∧ (gw.status = "captured" →
        (verifySuccessUpdate pid gw p).paymentStatus = .completed
        ∧ (verifySuccessUpdate pid gw p).metadata
            = { p.metadata with razorpayPayment := some (gwInfo gw) })
    ∧ (gw.status ≠ "captured" →
        (verifySuccessUpdate pid gw p).paymentStatus = .processing) := by
  have he := verify_success_eq hmac ks uid oid pid s gw db p ho hp hs hfind
    huser hsig
  refine ⟨by rw [he], ?_, ?_, ?_, ?_⟩
  · rw [he, findOne_updateFirst _ _ _ (verifySuccessUpdate_orderId pid gw),
      hfind]
    rfl
  · unfold verifySuccessUpdate
    split <;> rfl
  · intro hc
    exact ⟨by simp [verifySuccessUpdate, hc], by simp [verifySuccessUpdate, hc]⟩
  · intro hc
    simp [verifySuccessUpdate, hc]

/-- Claim C7 witness: a concrete valid verification of `order_A` with a
captured gateway payment completes the record with the submitted payment
id. -/
theorem verify_success_updates_record_witness :
    (verifyRazorpayPayment hmacToy (some "sec") 1 "order_A" "pay_1"
        (hmacToy "sec" "order_A|pay_1") sampleGw [samplePending]).1 = .verified
    ∧ findOne "order_A" (verifyRazorpayPayment hmacToy (some "sec") 1 "order_A"
        "pay_1" (hmacToy "sec" "order_A|pay_1") sampleGw [samplePending]).2
        = some (verifySuccessUpdate "pay_1" sampleGw samplePending)
    ∧ (verifySuccessUpdate "pay_1" sampleGw samplePending).transactionId
        = some "pay_1"
    ∧ (verifySuccessUpdate "pay_1" sampleGw samplePending).paymentStatus
        = .completed := by
  have h := verify_success_updates_record hmacToy "sec" 1 "order_A" "pay_1"
    (hmacToy "sec" "order_A|pay_1") sampleGw [samplePending] samplePending
    (by decide) (by decide) (by decide) (by decide) rfl (by decide)
    (Or.inl rfl)
  exact ⟨h.1, h.2.1, h.2.2.1, (h.2.2.2.1 rfl).1⟩

/-- Claim C4: for one successful client verification (gateway reports
captured) and one `payment.captured` webhook carrying the same underlying
transaction, applying the two in either order yields the same final store,
and the record ends `completed` with the same `transactionId`. -/
theorem verify_webhook_captured_commute (hmac : String → String → String)
    (ks : String) (uid : Nat) (oid pid s : String) (gw : GatewayPayment)
    (e : PaymentEntity) (db : List PaymentRecord) (p : PaymentRecord)
    (ho : oid ≠ "") (hp : pid ≠ "") (hs : s ≠ "")
    (hfind : findOne oid db = some p) (huser : p.user = uid)
    (hsig : hmac ks (oid ++ "|" ++ pid) = s)
    (hcap : gw.status = "captured")
    (heo : e.order_id = oid) (hei : e.id = pid)
    (hm : e.method = gw.method) (hb : e.bank = gw.bank)
    (hw : e.wallet = gw.wallet) (hv : e.vpa = gw.vpa)
    (hem : e.email = gw.email) (hc : e.contact = gw.contact)
    (hr : e.receipt = gw.receipt) :
    (verifyRazorpayPayment hmac (some ks) uid oid pid s gw
        (handlePaymentCaptured e db)).2
      = handlePaymentCaptured e
          (verifyRazorpayPayment hmac (some ks) uid oid pid s gw db).2
    ∧ findOne oid (verifyRazorpayPayment hmac (some ks) uid oid pid s gw
        (handlePaymentCaptured e db)).2
        = some (verifySuccessUpdate pid gw (capturedUpdate e p))
    ∧ (verifySuccessUpdate pid gw (capturedUpdate e p)).paymentStatus
        = .completed
    ∧ (verifySuccessUpdate pid gw (capturedUpdate e p)).transactionId
        = some pid := by
  have hfind2 : findOne oid (handlePaymentCaptured e db)
      = some (capturedUpdate e p) := by
    unfold handlePaymentCaptured
    rw [heo, findOne_updateFirst _ _ _ (capturedUpdate_orderId e), hfind]
    rfl
  have huser2 : (capturedUpdate e p).user = uid := by
    rw [capturedUpdate_user]; exact huser
  have h1 := verify_success_eq hmac ks uid oid pid s gw
    (handlePaymentCaptured e db) (capturedUpdate e p) ho hp hs hfind2 huser2
    hsig
  have h2 := verify_success_eq hmac ks uid oid pid s gw db p ho hp hs hfind
    huser hsig
  have h1s : (verifyRazorpayPayment hmac (some ks) uid oid pid s gw
      (handlePaymentCaptured e db)).2
      = updateFirst oid (verifySuccessUpdate pid gw)
          (handlePaymentCaptured e db) := by rw [h1]
  have h2s : (verifyRazorpayPayment hmac (some ks) uid oid pid s gw db).2
      = updateFirst oid (verifySuccessUpdate pid gw) db := by rw [h2]
  refine ⟨?_, ?_, ?_, ?_⟩
  · rw [h1s, h2s]
    unfold handlePaymentCaptured
    rw [heo, updateFirst_updateFirst _ _ _ _ (capturedUpdate_orderId e),
      updateFirst_updateFirst _ _ _ _ (verifySuccessUpdate_orderId pid gw)]
    exact updateFirst_congr _ _ _ _
      (fun q => verify_captured_update_comm pid gw e q hcap hei hm hb hw hv
        hem hc hr)
  · rw [h1s, findOne_updateFirst _ _ _ (verifySuccessUpdate_orderId pid gw),
      hfind2]
    rfl
  · simp [verifySuccessUpdate, hcap]
  · unfold verifySuccessUpdate
    split <;> rfl

/-- Claim C4 witness: on a concrete pending record, verification and the
matching captured webhook commute and end at `completed`. -/
theorem verify_webhook_captured_commute_witness :
    (verifyRazorpayPayment hmacToy (some "sec") 1 "order_A" "pay_1"
        (hmacToy "sec" "order_A|pay_1") sampleGw
        (handlePaymentCaptured sampleEntity [samplePending])).2
      = handlePaymentCaptured sampleEntity
          (verifyRazorpayPayment hmacToy (some "sec") 1 "order_A" "pay_1"
            (hmacToy "sec" "order_A|pay_1") sampleGw [samplePending]).2
    ∧ (verifySuccessUpdate "pay_1" sampleGw
        (capturedUpdate sampleEntity samplePending)).paymentStatus
        = .completed := by
  have h := verify_webhook_captured_commute hmacToy "sec" 1 "order_A" "pay_1"
    (hmacToy "sec" "order_A|pay_1") sampleGw sampleEntity [samplePending]
    samplePending (by decide) (by decide) (by decide) (by decide) rfl
    (by decide) rfl rfl rfl rfl rfl rfl rfl rfl rfl rfl
  exact ⟨h.1, h.2.2.1⟩

/-- Unfolding equation for `processRefund` on a present amount and a found
record, used by the refund claims. -/
theorem processRefund_cases (a : Int) (rsn nts : Option String)
    (p : PaymentRecord) (now : Nat) :
    processRefund ⟨some a, rsn, nts⟩ (some p) now
      = if a ≤ 0 then (.invalidAmount, some p, [])
        else if p.paymentStatus ≠ .completed then (.notCompleted, some p, [])
        else if 0 < p.refundAmount then (.alreadyRefunded, some p, [])
        else if p.amount < a then (.exceedsAmount, some p, [])
        else (.refunded,
              some { p with
                     refundAmount := a
                     refundReason := some (jsOr rsn "Requested refund")
                     refundedAt := some now
                     paymentStatus := .refunded
                     notes := jsOrElse nts p.notes },
              []) := rfl

/-- Outcome dichotomy for `processRefund` on a present amount and a found
record: either the request is rejected and the record returned unchanged,
or the amount was positive and the record is returned with the refund
fields and status written. -/
theorem processRefund_outcome (a : Int) (rsn nts : Option String)
    (p : PaymentRecord) (now : Nat) :
    ((processRefund ⟨some a, rsn, nts⟩ (some p) now).2.1 = some p
      ∧ (processRefund ⟨some a, rsn, nts⟩ (some p) now).1 ≠ .refunded)
    ∨ (0 < a
      ∧ (processRefund ⟨some a, rsn, nts⟩ (some p) now).1 = .refunded
      ∧ (processRefund ⟨some a, rsn, nts⟩ (some p) now).2.1
          = some { p with
                   refundAmount := a
                   refundReason := some (jsOr rsn "Requested refund")
                   refundedAt := some now
                   paymentStatus := .refunded
                   notes := jsOrElse nts p.notes }) := by
  rw [processRefund_cases]
  by_cases h1 : a ≤ 0
  · rw [if_pos h1]
    exact Or.inl ⟨rfl, by simp⟩
  · rw [if_neg h1]
    by_cases h2 : p.paymentStatus = PaymentStatus.completed
    · rw [if_neg (show ¬(p.paymentStatus ≠ PaymentStatus.completed) from
        fun hn => hn h2)]
      by_cases h3 : 0 < p.refundAmount
      · rw [if_pos h3]
        exact Or.inl ⟨rfl, by simp⟩
      · rw [if_neg h3]
        by_cases h4 : p.amount < a
        · rw [if_pos h4]
          exact Or.inl ⟨rfl, by simp⟩
        · rw [if_neg h4]
          exact Or.inr ⟨by omega, rfl, rfl⟩
    · rw [if_pos (show p.paymentStatus ≠ PaymentStatus.completed from h2)]
      exact Or.inl ⟨rfl, by simp⟩

/-- Claim C6 counterexample: a refund request for amount 0 on a completed,
never-refunded record satisfies all four preconditions listed by the claim
(record exists, status completed, refundAmount unset, 0 ≤ original amount),
yet the handler rejects it — with a validation error raised before the
record is even looked up — so the claimed "if and only if" fails. -/
theorem zero_refund_rejected_despite_claim_preconditions :
    sampleCompleted.paymentStatus = .completed
    ∧ sampleCompleted.refundAmount = 0
    ∧ (0 : Int) ≤ sampleCompleted.amount
    ∧ (processRefund ⟨some 0, none, none⟩ (some sampleCompleted) 7).1
        ≠ .refunded
    ∧ (processRefund ⟨some 0, none, none⟩ (some sampleCompleted) 7).1
        = .invalidAmount
    ∧ (processRefund ⟨some 0, none, none⟩ (some sampleCompleted) 7).2.1
        = some sampleCompleted
    ∧ (processRefund ⟨some 0, none, none⟩ none 7).1 = .invalidAmount := by
  decide

/-- Claim C6 amended: the refund succeeds if and only if the requested
amount is present and positive (a validation checked first, before the
record lookup) and then, in order with the first failure winning, the
record exists, its status is `completed`, `refundAmount` is not already
positive, and the requested amount is at most the original amount. On any
failure the record is unchanged; a missing amount and a non-positive amount
are validation errors even when the record is absent; after a successful
refund any second request is rejected with the record unchanged; a request
above the original amount is rejected with the dedicated error. -/
theorem refund_success_characterization (a a2 : Int) (rsn nts : Option String)
    (p : PaymentRecord) (now later : Nat) :
    ((processRefund ⟨some a, rsn, nts⟩ (some p) now).1 = .refunded ↔
      (0 < a ∧ p.paymentStatus = .completed ∧ ¬ 0 < p.refundAmount
        ∧ a ≤ p.amount))
    ∧ ((processRefund ⟨some a, rsn, nts⟩ (some p) now).1 ≠ .refunded →
        (processRefund ⟨some a, rsn, nts⟩ (some p) now).2.1 = some p)
    ∧ (processRefund ⟨none, rsn, nts⟩ (some p) now).1 = .invalidAmount
    ∧ (processRefund ⟨some a, rsn, nts⟩ none now).1
        = (if a ≤ 0 then .invalidAmount else .notFound)
    ∧ (0 < a → p.paymentStatus = .completed → ¬ 0 < p.refundAmount →
        p.amount < a →
        (processRefund ⟨some a, rsn, nts⟩ (some p) now).1 = .exceedsAmount)
    ∧ (∀ q, (processRefund ⟨some a, rsn, nts⟩ (some p) now).1 = .refunded →
        (processRefund ⟨some a, rsn, nts⟩ (some p) now).2.1 = some q →
        (processRefund ⟨some a2, rsn, nts⟩ (some q) later).1 ≠ .refunded
        ∧ (processRefund ⟨some a2, rsn, nts⟩ (some q) later).2.1 = some q) := by
  refine ⟨?_, ?_, rfl, ?_, ?_, ?_⟩
  · rw [processRefund_cases]
    by_cases h1 : a ≤ 0
    · rw [if_pos h1]
      exact iff_of_false (by simp) (by rintro ⟨ha, -, -, -⟩; omega)
    · rw [if_neg h1]
      by_cases h2 : p.paymentStatus = PaymentStatus.completed
      · rw [if_neg (show ¬(p.paymentStatus ≠ PaymentStatus.completed) from
          fun hn => hn h2)]
        by_cases h3 : 0 < p.refundAmount
        · rw [if_pos h3]
          exact iff_of_false (by simp) (by rintro ⟨-, -, hn, -⟩; exact hn h3)
        · rw [if_neg h3]
          by_cases h4 : p.amount < a
          · rw [if_pos h4]
            exact iff_of_false (by simp) (by rintro ⟨-, -, -, hle⟩; omega)
          · rw [if_neg h4]
            exact iff_of_true rfl ⟨by omega, h2, h3, by omega⟩
      · rw [if_pos (show p.paymentStatus ≠ PaymentStatus.completed from h2)]
        exact iff_of_false (by simp) (by rintro ⟨-, hc, -, -⟩; exact h2 hc)
  · rw [processRefund_cases]
    intro hne
    by_cases h1 : a ≤ 0
    · rw [if_pos h1]
    · rw [if_neg h1]
      by_cases h2 : p.paymentStatus = PaymentStatus.completed
      · rw [if_neg (show ¬(p.paymentStatus ≠ PaymentStatus.completed) from
          fun hn => hn h2)]
        by_cases h3 : 0 < p.refundAmount
        · rw [if_pos h3]
        · rw [if_neg h3]
          by_cases h4 : p.amount < a
          · rw [if_pos h4]
          · exfalso
            apply hne
            rw [if_neg h1,
              if_neg (show ¬(p.paymentStatus ≠ PaymentStatus.completed) from
                fun hn => hn h2), if_neg h3, if_neg h4]
      · rw [if_pos (show p.paymentStatus ≠ PaymentStatus.completed from h2)]
  · by_cases h1 : a ≤ 0 <;> simp [processRefund, h1]
  · intro ha hcomp hnr hlt
    rw [processRefund_cases, if_neg (by omega),
      if_neg (show ¬(p.paymentStatus ≠ PaymentStatus.completed) from
        fun hn => hn hcomp), if_neg hnr, if_pos hlt]
  · intro q hres hq
    rcases processRefund_outcome a rsn nts p now with ⟨-, hne⟩ | ⟨-, -, hsq⟩
    · exact absurd hres hne
    · have hql : q = { p with
          refundAmount := a
          refundReason := some (jsOr rsn "Requested refund")
          refundedAt := some now
          paymentStatus := .refunded
          notes := jsOrElse nts p.notes } :=
        Option.some.inj (hq.symm.trans hsq)
      have hqs : q.paymentStatus = PaymentStatus.refunded := by
        rw [hql]
      rw [processRefund_cases]
      by_cases ha2 : a2 ≤ 0
      · rw [if_pos ha2]
        exact ⟨by simp, rfl⟩
      · rw [if_neg ha2, if_pos (show q.paymentStatus ≠ PaymentStatus.completed
          from by rw [hqs]; decide)]
        exact ⟨by simp, rfl⟩

/-- Claim C6 witness: a valid refund of 999 on the completed 999-amount
record succeeds (via the iff with all four checks holding concretely), and
the precondition conjunction evaluates on the concrete record. -/
theorem refund_success_characterization_witness :
    (processRefund ⟨some 999, none, none⟩ (some sampleCompleted) 5).1
      = .refunded
    ∧ sampleCompleted.paymentStatus = .completed
    ∧ sampleCompleted.refundAmount = 0
    ∧ sampleCompleted.amount = 999 := by
  have h := refund_success_characterization 999 100 none none sampleCompleted
    5 6
  exact ⟨h.1.mpr ⟨by decide, by decide, by decide, by decide⟩, by decide,
    by decide, by decide⟩

/-- Claim C8 counterexample: the admin status update can set the status to
`refunded` on a record with no refund fields, so the equivalence "refund
fields non-empty iff status refunded" is not preserved by every operation. -/
theorem admin_status_update_breaks_refund_invariant :
    refundInvariant samplePending
    ∧ updatePaymentStatus ⟨some .refunded, none, none, none, none⟩
        (some samplePending)
        = (true, some { samplePending with paymentStatus := .refunded })
    ∧ ¬ refundInvariant { samplePending with paymentStatus := .refunded } := by
  decide

/-- Claim C8 amended: the Refund Coordinator preserves the equivalence
(on success it writes all three refund fields together with status
`refunded`; on failure it leaves the record unchanged), but the equivalence
is not preserved by every operation: the admin status update can set
status `refunded` without the refund fields, and the `order.paid` webhook
moves a refunded record to `completed` while its refund fields stay set. -/
theorem refund_coordinator_preserves_invariant :
    (∀ (req : RefundRequest) (p q : PaymentRecord) (now : Nat),
        refundInvariant p →
        (processRefund req (some p) now).2.1 = some q → refundInvariant q)
    ∧ refundInvariant sampleRefunded
    ∧ ¬ refundInvariant (orderPaidUpdate sampleRefunded)
    ∧ (orderPaidUpdate sampleRefunded).paymentStatus = .completed := by
  refine ⟨?_, by decide, by decide, by decide⟩
  intro req p q now hp hq
  obtain ⟨ra, rsn, nts⟩ := req
  cases ra with
  | none =>
    have h5 : p = q := Option.some.inj hq
    rw [← h5]
    exact hp
  | some a =>
    rcases processRefund_outcome a rsn nts p now with ⟨hsame, -⟩ | ⟨hpos, -, hsq⟩
    · have h5 : p = q := Option.some.inj (hsame.symm.trans hq)
      rw [← h5]
      exact hp
    · have h5 : q = { p with
          refundAmount := a
          refundReason := some (jsOr rsn "Requested refund")
          refundedAt := some now
          paymentStatus := .refunded
          notes := jsOrElse nts p.notes } :=
        Option.some.inj (hq.symm.trans hsq)
      rw [h5]
      exact ⟨fun _ => rfl, fun _ => ⟨hpos, rfl, rfl⟩⟩

/-- Claim C8 witness: a concrete full refund of the completed record
produces a record satisfying the equivalence. -/
theorem refund_coordinator_preserves_invariant_witness :
    refundInvariant sampleCompleted
    ∧ (processRefund ⟨some 999, none, none⟩ (some sampleCompleted) 5).2.1
        = some { sampleCompleted with
                 refundAmount := 999
                 refundReason := some "Requested refund"
                 refundedAt := some 5
                 paymentStatus := .refunded }
    ∧ refundInvariant { sampleCompleted with
                 refundAmount := 999
                 refundReason := some "Requested refund"
                 refundedAt := some 5
                 paymentStatus := .refunded } := by
  refine ⟨by decide, by decide, ?_⟩
  exact refund_coordinator_preserves_invariant.1 ⟨some 999, none, none⟩
    sampleCompleted _ 5 (by decide) (by decide)

end PaymentCore
